import Mathlib

/-!
Verification development for the `ai-form-backend` repository: a FastAPI
relay that accepts a list of form field names plus a block of source text,
asks an LLM completion endpoint to extract values, and returns the parsed
JSON object.  The definitions below are shallow embeddings of
`app/api/v1/endpoints/form_filler.py`, `app/core/llm_services.py` and
`app/models/form_models.py`, together with models of the Python library
behaviour those files rely on (`json.loads`, dict/list subscripting,
truthiness, `httpx` error classes).
-/

/-- JSON values as produced by Python's `json.loads`.  Numbers are modelled
as exact rationals (Python parses decimal literals into `int`/`float`; the
binary rounding of `float` is outside this model, which never needs to
distinguish `1` from `1.0`).  The literals `NaN` and `Infinity`, which
Python's default decoder accepts, get dedicated constructors since they are
not rationals.  Objects are insertion-ordered key/value lists, as Python
dicts are. -/
inductive Json where
  | null
  | bool (b : Bool)
  | num (q : ℚ)
  | nan
  | inf (neg : Bool)
  | str (s : String)
  | arr (elems : List Json)
  | obj (members : List (String × Json))

/-- Lookup in a JSON object, i.e. Python `d[k]` / `k in d` support:
first (and only, after `objInsert`) binding of the key. -/
def jsonLookup (kvs : List (String × Json)) (k : String) : Option Json :=
  match kvs.find? (fun kv => kv.1 == k) with
  | some kv => some kv.2
  | none => none

/-- Model of Python dict insertion while decoding a JSON object: a repeated
key overwrites the earlier value but keeps the first key's position. -/
def objInsert (kvs : List (String × Json)) (k : String) (v : Json) :
    List (String × Json) :=
  if kvs.any (fun kv => kv.1 == k) then
    kvs.map (fun kv => if kv.1 == k then (k, v) else kv)
  else kvs ++ [(k, v)]

/-- JSON whitespace skipping (space, tab, newline, carriage return), as in
Python's `json` decoder. -/
def skipWs : List Char → List Char
  | c :: cs =>
    if c = ' ' ∨ c = '\t' ∨ c = '\n' ∨ c = '\r' then skipWs cs else c :: cs
  | [] => []

def hexVal (c : Char) : Option Nat :=
  if '0' ≤ c ∧ c ≤ '9' then some (c.toNat - '0'.toNat)
  else if 'a' ≤ c ∧ c ≤ 'f' then some (c.toNat - 'a'.toNat + 10)
  else if 'A' ≤ c ∧ c ≤ 'F' then some (c.toNat - 'A'.toNat + 10)
  else none

def parseHex4 : List Char → Option (Nat × List Char)
  | a :: b :: c :: d :: rest =>
    match hexVal a, hexVal b, hexVal c, hexVal d with
    | some x, some y, some z, some w => some (((x * 16 + y) * 16 + z) * 16 + w, rest)
    | _, _, _, _ => none
  | _ => none

/-- Body of a JSON string literal (the opening quote already consumed),
following Python's strict decoder: raw control characters are rejected,
the eight single-character escapes and `\uXXXX` (with surrogate-pair
combination) are recognised.  Lone surrogates, which Python would keep as
unpaired surrogate code units, are not representable as Lean `Char` and are
the one place this model is narrower than `json.loads`. -/
def parseStrBody : Nat → List Char → Except String (List Char × List Char)
  | 0, _ => .error "Unterminated string"
  | _ + 1, [] => .error "Unterminated string starting at"
  | fuel + 1, c :: cs =>
    if c = '"' then .ok ([], cs)
    else if c = '\\' then
      match cs with
      | [] => .error "Unterminated string starting at"
      | e :: cs' =>
        if e = 'u' then
          match parseHex4 cs' with
          | none => .error "Invalid \\uXXXX escape"
          | some (n, rest) =>
            if 0xD800 ≤ n ∧ n ≤ 0xDBFF then
              match rest with
              | '\\' :: 'u' :: rest2 =>
                match parseHex4 rest2 with
                | some (m, rest3) =>
                  if 0xDC00 ≤ m ∧ m ≤ 0xDFFF then
                    match parseStrBody fuel rest3 with
                    | .ok (body, tail) =>
                      .ok (Char.ofNat (0x10000 + (n - 0xD800) * 0x400 + (m - 0xDC00)) :: body, tail)
                    | .error msg => .error msg
                  else .error "Unpaired surrogate"
                | none => .error "Invalid \\uXXXX escape"
              | _ => .error "Unpaired surrogate"
            else if 0xDC00 ≤ n ∧ n ≤ 0xDFFF then .error "Unpaired surrogate"
            else
              match parseStrBody fuel rest with
              | .ok (body, tail) => .ok (Char.ofNat n :: body, tail)
              | .error msg => .error msg
        else
          let esc : Option Char :=
            if e = '"' then some '"'
            else if e = '\\' then some '\\'
            else if e = '/' then some '/'
            else if e = 'n' then some '\n'
            else if e = 't' then some '\t'
            else if e = 'r' then some '\r'
            else if e = 'b' then some (Char.ofNat 8)
            else if e = 'f' then some (Char.ofNat 12)
            else none
          match esc with
          | some ch =>
            match parseStrBody fuel cs' with
            | .ok (body, tail) => .ok (ch :: body, tail)
            | .error msg => .error msg
          | none => .error "Invalid \\escape"
    else if c.toNat < 32 then .error "Invalid control character"
    else
      match parseStrBody fuel cs with
      | .ok (body, tail) => .ok (c :: body, tail)
      | .error msg => .error msg

def takeDigits : List Char → List Char × List Char
  | [] => ([], [])
  | c :: cs =>
    if c.isDigit then
      match takeDigits cs with
      | (ds, rest) => (c :: ds, rest)
    else ([], c :: cs)

def digitsToNat (ds : List Char) : Nat :=
  ds.foldl (fun a c => 10 * a + (c.toNat - '0'.toNat)) 0

/-- The rational value of a JSON number token with integer digits `ip`,
fraction digits `fp` and signed exponent digits. -/
def mkNumVal (neg : Bool) (ip fp : List Char) (eneg : Bool) (ep : List Char) : ℚ :=
  let mant : ℚ := (digitsToNat ip : ℚ) + (digitsToNat fp : ℚ) / ((10 : ℚ) ^ fp.length)
  let ex : ℤ := if eneg then -(digitsToNat ep : ℤ) else (digitsToNat ep : ℤ)
  (if neg then -mant else mant) * (10 : ℚ) ^ ex

/-- Greedy match of the JSON number grammar `(0|[1-9][0-9]*)(\.[0-9]+)?([eE][+-]?[0-9]+)?`
starting after an optional sign, exactly as Python's `NUMBER_RE` does: a
trailing `.` or exponent marker without digits is left unconsumed, so the
surrounding context reports the error (`Extra data`, delimiter errors, ...)
just as `json.loads` would. -/
def parseNumTail (neg : Bool) (cs : List Char) : Except String (Json × List Char) :=
  match takeDigits cs with
  | ([], _) => .error "Expecting value"
  | (d :: ds, rest) =>
    let ipart : List Char := if d = '0' then [d] else d :: ds
    let afterInt : List Char := if d = '0' then ds ++ rest else rest
    let (fpart, afterFrac) :=
      match afterInt with
      | '.' :: fs =>
        match takeDigits fs with
        | ([], _) => (([] : List Char), afterInt)
        | (f :: fs', rest2) => (f :: fs', rest2)
      | _ => ([], afterInt)
    let (eneg, epart, afterExp) :=
      match afterFrac with
      | e :: sgn :: es =>
        if (e = 'e' ∨ e = 'E') then
          if sgn = '+' ∨ sgn = '-' then
            match takeDigits es with
            | ([], _) => (false, ([] : List Char), afterFrac)
            | (x :: xs, rest3) => (sgn = '-', x :: xs, rest3)
          else
            match takeDigits (sgn :: es) with
            | ([], _) => (false, ([] : List Char), afterFrac)
            | (x :: xs, rest3) => (false, x :: xs, rest3)
        else (false, ([] : List Char), afterFrac)
      | [e] =>
        if e = 'e' ∨ e = 'E' then (false, ([] : List Char), afterFrac)
        else (false, ([] : List Char), afterFrac)
      | [] => (false, ([] : List Char), afterFrac)
    .ok (Json.num (mkNumVal neg ipart fpart eneg epart), afterExp)

mutual

/-- One JSON value, fuel-bounded recursive-descent over the character list.
Mirrors Python's `json.decoder`: the constants `true`/`false`/`null` and the
non-standard `NaN`/`Infinity`/`-Infinity` accepted by the default decoder.
The fuel, chosen larger than the input length by `json_loads`, decreases on
every nested call and can never run out on the inputs `json_loads` passes. -/
def parseVal : Nat → List Char → Except String (Json × List Char)
  | 0, _ => .error "Expecting value"
  | fuel + 1, cs =>
    match skipWs cs with
    | [] => .error "Expecting value"
    | c :: rest =>
      if c = '"' then
        match parseStrBody (rest.length + 1) rest with
        | .ok (body, tail) => .ok (Json.str (String.mk body), tail)
        | .error msg => .error msg
      else if c = '{' then
        match skipWs rest with
        | '}' :: rest2 => .ok (Json.obj [], rest2)
        | rest2 => parseObjItems fuel [] rest2
      else if c = '[' then
        match skipWs rest with
        | ']' :: rest2 => .ok (Json.arr [], rest2)
        | rest2 => parseArrItems fuel [] rest2
      else if c = 't' then
        match rest with
        | 'r' :: 'u' :: 'e' :: rest2 => .ok (Json.bool true, rest2)
        | _ => .error "Expecting value"
      else if c = 'f' then
        match rest with
        | 'a' :: 'l' :: 's' :: 'e' :: rest2 => .ok (Json.bool false, rest2)
        | _ => .error "Expecting value"
      else if c = 'n' then
        match rest with
        | 'u' :: 'l' :: 'l' :: rest2 => .ok (Json.null, rest2)
        | _ => .error "Expecting value"
      else if c = 'N' then
        match rest with
        | 'a' :: 'N' :: rest2 => .ok (Json.nan, rest2)
        | _ => .error "Expecting value"
      else if c = 'I' then
        match rest with
        | 'n' :: 'f' :: 'i' :: 'n' :: 'i' :: 't' :: 'y' :: rest2 =>
          .ok (Json.inf false, rest2)
        | _ => .error "Expecting value"
      else if c = '-' then
        match rest with
        | 'I' :: 'n' :: 'f' :: 'i' :: 'n' :: 'i' :: 't' :: 'y' :: rest2 =>
          .ok (Json.inf true, rest2)
        | _ => parseNumTail true rest
      else if c.isDigit then
        parseNumTail false (c :: rest)
      else .error "Expecting value"

/-- Elements of a non-empty JSON array (the `[` and following whitespace
already consumed). -/
def parseArrItems : Nat → List Json → List Char → Except String (Json × List Char)
  | 0, _, _ => .error "Expecting value"
  | fuel + 1, acc, cs =>
    match parseVal fuel cs with
    | .error msg => .error msg
    | .ok (v, rest) =>
      match skipWs rest with
      | ',' :: rest2 => parseArrItems fuel (acc ++ [v]) rest2
      | ']' :: rest2 => .ok (Json.arr (acc ++ [v]), rest2)
      | _ => .error "Expecting , delimiter"

/-- Members of a non-empty JSON object (the `\x7b` and following whitespace
already consumed; the next character must open a key string). -/
def parseObjItems : Nat → List (String × Json) → List Char →
    Except String (Json × List Char)
  | 0, _, _ => .error "Expecting value"
  | fuel + 1, acc, cs =>
    match cs with
    | '"' :: csk =>
      match parseStrBody (csk.length + 1) csk with
      | .error msg => .error msg
      | .ok (keyChars, afterKey) =>
        match skipWs afterKey with
        | ':' :: afterColon =>
          match parseVal fuel afterColon with
          | .error msg => .error msg
          | .ok (v, afterVal) =>
            let acc' := objInsert acc (String.mk keyChars) v
            match skipWs afterVal with
            | ',' :: rest2 => parseObjItems fuel acc' (skipWs rest2)
            | '}' :: rest2 => .ok (Json.obj acc', rest2)
            | _ => .error "Expecting , delimiter"
        | _ => .error "Expecting : delimiter"
    | _ => .error "Expecting property name enclosed in double quotes"

end

/-- Model of Python's `json.loads` on a text: parse one JSON value, allow
surrounding whitespace, and reject trailing input with the `Extra data`
error.  Returns `Except` where Python raises `json.JSONDecodeError`; the
error strings carry the decoder's message without the line/column suffix. -/
def json_loads (s : String) : Except String Json :=
  let cs := s.data
  match parseVal (2 * cs.length + 2) cs with
  | .error msg => .error msg
  | .ok (j, rest) =>
    if (skipWs rest).isEmpty then .ok j else .error "Extra data"

/-! ## Python runtime semantics needed by `LLMService.get_completion`

`app/core/llm_services.py` navigates the upstream JSON envelope with plain
Python operations (`in`, subscripting, `.get`), whose behaviour on
unexpected shapes (truthiness, `TypeError`, `AttributeError`, `KeyError`)
determines the error classification.  These are modelled below on `Json`
values (the result of `response.json()`). -/

/-- Python exception classes that the envelope navigation can raise. -/
inductive PyExc where
  | valueError (msg : String)
  | keyError (msg : String)
  | typeError (msg : String)
  | attributeError (msg : String)
  | indexError (msg : String)

/-- The Python `str(e)` of such an exception. -/
def PyExc.toMsg : PyExc → String
  | .valueError m => m
  | .keyError m => m
  | .typeError m => m
  | .attributeError m => m
  | .indexError m => m

/-- Python type name of a decoded JSON value (`type(x).__name__`).  A
`Json.num` with denominator 1 prints as `int`; the `int`/`float` distinction
of the original literal is not tracked by this model. -/
def Json.pyTypeName : Json → String
  | .null => "NoneType"
  | .bool _ => "bool"
  | .num q => if q.den = 1 then "int" else "float"
  | .nan => "float"
  | .inf _ => "float"
  | .str _ => "str"
  | .arr _ => "list"
  | .obj _ => "dict"

/-- Python truthiness of a decoded JSON value (`bool(x)`). -/
def truthy : Json → Bool
  | .null => false
  | .bool b => b
  | .num q => q ≠ 0
  | .nan => true
  | .inf _ => true
  | .str s => s ≠ ""
  | .arr xs => !xs.isEmpty
  | .obj kvs => !kvs.isEmpty

/-- Python `element == s` for a string `s` (only equal strings compare
equal; values of other types are never equal to a string). -/
def Json.isStrEq (j : Json) (s : String) : Bool :=
  match j with
  | .str t => t == s
  | _ => false

/-- Substring test on character lists (for Python's `key in someString`). -/
def charSub (needle : List Char) : List Char → Bool
  | [] => needle.isEmpty
  | c :: t => needle.isPrefixOf (c :: t) || charSub needle t

/-- Python `key in x`: key test on dicts, membership on lists, substring
test on strings, `TypeError` otherwise. -/
def py_in (key : String) (j : Json) : Except PyExc Bool :=
  match j with
  | .obj kvs => .ok (kvs.any (fun kv => kv.1 == key))
  | .arr xs => .ok (xs.any (fun x => x.isStrEq key))
  | .str s => .ok (charSub key.data s.data)
  | _ => .error (.typeError ("argument of type '" ++ j.pyTypeName ++ "' is not iterable"))

/-- Python `x[key]` for a string key. -/
def py_subscript_str (j : Json) (key : String) : Except PyExc Json :=
  match j with
  | .obj kvs =>
    match jsonLookup kvs key with
    | some v => .ok v
    | none => .error (.keyError ("'" ++ key ++ "'"))
  | .arr _ => .error (.typeError "list indices must be integers or slices, not str")
  | .str _ => .error (.typeError "string indices must be integers")
  | _ => .error (.typeError ("'" ++ j.pyTypeName ++ "' object is not subscriptable"))

/-- Python `x[0]`. -/
def py_subscript_zero (j : Json) : Except PyExc Json :=
  match j with
  | .arr [] => .error (.indexError "list index out of range")
  | .arr (x :: _) => .ok x
  | .obj _ => .error (.keyError "0")
  | .str s =>
    match s.data with
    | [] => .error (.indexError "string index out of range")
    | c :: _ => .ok (.str (String.mk [c]))
  | _ => .error (.typeError ("'" ++ j.pyTypeName ++ "' object is not subscriptable"))

/-- Python `x.get(key, default)`: only dicts have `.get`. -/
def py_get (j : Json) (key : String) (dflt : Json) : Except PyExc Json :=
  match j with
  | .obj kvs => .ok ((jsonLookup kvs key).getD dflt)
  | _ => .error (.attributeError ("'" ++ j.pyTypeName ++ "' object has no attribute 'get'"))

/-- The envelope navigation of `LLMService.get_completion` on the decoded
2xx body `response_data` (llm_services.py lines 33-45):

    if "choices" in response_data and response_data["choices"]:
        message = response_data["choices"][0].get("message", \x7b\x7d)
        if "content" in message:
            return message["content"]
    raise ValueError("Could not extract valid content from LLM response.")
-/
def extract_content (response_data : Json) : Except PyExc Json :=
  match py_in "choices" response_data with
  | .error e => .error e
  | .ok hasChoices =>
    if hasChoices then
      match py_subscript_str response_data "choices" with
      | .error e => .error e
      | .ok choices =>
        if truthy choices then
          match py_subscript_zero choices with
          | .error e => .error e
          | .ok c0 =>
            match py_get c0 "message" (Json.obj []) with
            | .error e => .error e
            | .ok message =>
              match py_in "content" message with
              | .error e => .error e
              | .ok hasContent =>
                if hasContent then py_subscript_str message "content"
                else .error (.valueError "Could not extract valid content from LLM response.")
        else .error (.valueError "Could not extract valid content from LLM response.")
    else .error (.valueError "Could not extract valid content from LLM response.")

/-- The spec's `choices[0].message.content` path through an upstream
envelope: `some v` exactly when the body is an object whose `choices` is a
non-empty list, `choices[0]` is an object whose `message` is an object with
a `content` member `v`. -/
def contentPath (j : Json) : Option Json :=
  match j with
  | .obj kvs =>
    match jsonLookup kvs "choices" with
    | some (.arr (c0 :: _)) =>
      match c0 with
      | .obj mkvs =>
        match jsonLookup mkvs "message" with
        | some (.obj ckvs) => jsonLookup ckvs "content"
        | _ => none
      | _ => none
    | _ => none
  | _ => none

/-! ## `LLMService` (app/core/llm_services.py) -/

/-- The outcome of the single `httpx` POST, as seen by `get_completion`:
either a transport-level failure (`httpx.RequestError`: connection refused,
DNS failure, timeout — carrying its `str(e)`), or an HTTP response with a
status code and a body text. -/
inductive HTTPOutcome where
  | transportError (msg : String)
  | response (statusCode : Nat) (body : String)

/-- Exceptions that can escape `get_completion`: the two re-raised `httpx`
errors, the `ValueError` wrapper produced by its last `except` clause, and
any exception class that no `except` clause matches (e.g. `TypeError`,
`AttributeError`, `IndexError` from the envelope navigation), which
propagates unchanged.  Each constructor carries the Python `str(e)` text. -/
inductive CompletionException where
  | httpStatusError (statusCode : Nat) (msg : String)
  | requestError (msg : String)
  | valueError (msg : String)
  | uncaught (e : PyExc)

def CompletionException.toMsg : CompletionException → String
  | .httpStatusError _ m => m
  | .requestError m => m
  | .valueError m => m
  | .uncaught e => e.toMsg

/-- Whether the exception is one of the three upstream failure classes of
the spec's taxonomy: `UpstreamTransportError` (httpx.RequestError),
`UpstreamHTTPError` (httpx.HTTPStatusError), or
`UpstreamContentExtractionError` (the wrapped ValueError). -/
def CompletionException.isClassified : CompletionException → Bool
  | .httpStatusError _ _ => true
  | .requestError _ => true
  | .valueError _ => true
  | .uncaught _ => false

/-- Modelled from the `httpx` library: the message of the `HTTPStatusError`
raised by `response.raise_for_status()` for a non-2xx status (the library
text names the status code and URL; only the code is tracked here). -/
def httpStatusErrMsg (statusCode : Nat) : String :=
  "HTTP status error '" ++ toString statusCode ++ "'"

/-- `PyExc`s that the clause `except (json.JSONDecodeError, KeyError,
ValueError)` catches are re-raised as
`ValueError(f"Error parsing LLM API response: \x7bstr(e)\x7d")`; anything
else propagates unchanged. -/
def wrap_parse_exc : PyExc → CompletionException
  | .valueError m => .valueError ("Error parsing LLM API response: " ++ m)
  | .keyError m => .valueError ("Error parsing LLM API response: " ++ m)
  | e => .uncaught e

/-- `LLMService.get_completion` (llm_services.py lines 13-55), as a function
of the outcome of its POST: re-raise transport errors; raise for non-2xx
status (`raise_for_status`, which succeeds exactly on 2xx); decode the body
with `response.json()` (a `json.loads`), wrapping a decode failure; then
navigate the envelope, returning `choices[0].message.content` unmodified,
wrapping `ValueError`/`KeyError` from the navigation, and letting any other
exception escape unchanged. -/
def get_completion (outcome : HTTPOutcome) : Except CompletionException Json :=
  match outcome with
  | .transportError msg => .error (.requestError msg)
  | .response statusCode body =>
    if 200 ≤ statusCode ∧ statusCode ≤ 299 then
      match json_loads body with
      | .error msg => .error (.valueError ("Error parsing LLM API response: " ++ msg))
      | .ok response_data =>
        match extract_content response_data with
        | .ok content => .ok content
        | .error e => .error (wrap_parse_exc e)
    else .error (.httpStatusError statusCode (httpStatusErrMsg statusCode))

/-- The service object built by `LLMService.__init__`: the two constructor
arguments plus the hard-coded 30-second timeout. -/
structure LLMService where
  api_key : String
  api_endpoint : String
  timeout : Nat

def LLMService.init (api_key : String) (api_endpoint : String) : LLMService :=
  { api_key := api_key, api_endpoint := api_endpoint, timeout := 30 }

/-- The JSON payload `get_completion` posts (llm_services.py lines 18-24).
The temperature literal `0.1` is the exact rational 1/10 here. -/
structure CompletionPayload where
  model : String
  prompt : String
  max_tokens : Nat
  temperature : ℚ

/-- The single outbound HTTP request `get_completion` issues. -/
structure HTTPRequestModel where
  method : String
  url : String
  headers : List (String × String)
  payload : CompletionPayload
  timeoutSeconds : Nat

/-- The request construction inside `get_completion`: POST to the
configured endpoint, bearer-token authorization from the API key, fixed
model id, the given prompt, `max_tokens` 1500, `temperature` 0.1, under the
client's 30-second timeout. -/
def build_request (svc : LLMService) (prompt : String) : HTTPRequestModel :=
  { method := "POST"
    url := svc.api_endpoint
    headers := [("Authorization", "Bearer " ++ svc.api_key),
                ("Content-Type", "application/json")]
    payload := { model := "deepseek-coder", prompt := prompt,
                 max_tokens := 1500, temperature := 1 / 10 }
    timeoutSeconds := svc.timeout }

/-! ## Request/response models (app/models/form_models.py) and the endpoint
(app/api/v1/endpoints/form_filler.py) -/

/-- `FillFormRequest`: `prompt_template_id` is `Optional[str]` with default
`"default_v1"` (an explicit JSON `null` yields `none`). -/
structure FillFormRequest where
  fields : List String
  source_content : String
  prompt_template_id : Option String := some "default_v1"

/-- Whether a decoded JSON value is a Python `str`. -/
def Json.isStr : Json → Bool
  | .str _ => true
  | _ => false

/-- The pydantic (v2, per the `pydantic_settings` usage in config.py)
validation of the `Dict[str, str]` annotation on `filled_data`
(form_models.py line 11): keys of a decoded JSON object are always
strings, so the mapping validates exactly when every value is a string —
a number, boolean, null, array or object value raises `ValidationError`
(v2 does not coerce such values to `str`). -/
def validDictStrStr (kvs : List (String × Json)) : Bool :=
  kvs.all (fun kv => kv.2.isStr)

/-- `FillFormSuccessResponse`: fixed `status` literal and the parsed
mapping.  Constructing it pydantic-validates `filled_data` against
`Dict[str, str]` (see `validDictStrStr`); a mapping that validates is
stored unchanged. -/
structure FillFormSuccessResponse where
  status : String := "success"
  filled_data : List (String × Json)

/-- What a request to the endpoint produces: a 200 with a
`FillFormSuccessResponse`; a raised `HTTPException` with a status code and
a detail message; or, when an exception that is no `HTTPException` (e.g.
the pydantic `ValidationError` from the response-model construction)
escapes the handler, the response of `main.py`'s global exception handler —
a 500 carrying its fixed generic message. -/
inductive EndpointResult where
  | success (resp : FillFormSuccessResponse)
  | httpError (statusCode : Nat) (detail : String)
  | unhandledError (statusCode : Nat) (message : String)

def EndpointResult.statusCode : EndpointResult → Nat
  | .success _ => 200
  | .httpError c _ => c
  | .unhandledError c _ => c

/-- `fields_str = "\n".join([f"- \x7bfield\x7d" for field in request_data.fields])` -/
def fields_str (fields : List String) : String :=
  String.intercalate "\n" (fields.map (fun field => "- " ++ field))

/-- The fixed template text before the field list. -/
def promptHead : String :=
  "You are an AI assistant tasked with filling out a form.\nBelow are the fields of the form:\n--- FIELDS START ---\n"

/-- The fixed template text between the field list and the source content. -/
def promptMid : String :=
  "\n--- FIELDS END ---\n\nHere is the source content from which to extract the information:\n--- CONTENT START ---\n"

/-- The fixed template text after the source content. -/
def promptTail : String :=
  "\n--- CONTENT END ---\n\nPlease extract the relevant information from the CONTENT and fill in each FIELD.\nReturn the output as a JSON object where each key is a field name from the FIELDS list and its value is the corresponding extracted content.\nIf information for a field is not found, use an empty string or \"Not Found\" as its value.\nEnsure the output is only the JSON object itself, without any additional explanations or markings.\n"

/-- The f-string prompt template of `fill_form_endpoint`
(form_filler.py lines 29-46). -/
def build_prompt (fields : List String) (source_content : String) : String :=
  promptHead ++ fields_str fields ++ promptMid ++ source_content ++ promptTail

/-- `fill_form_endpoint` (form_filler.py lines 21-67), parameterised by the
completion client (`llm_service.get_completion` or a stub), given as a
function from the prompt to either the returned text or the raised
exception.  The first `try` maps ANY exception from the client to a 503
whose detail embeds `str(e)`; the second parses the text with `json.loads`,
raises `ValueError` when the parse result is not a dict, and maps both
`json.JSONDecodeError` and `ValueError` to a 500.  The final
`FillFormSuccessResponse(filled_data=filled_data)` construction
pydantic-validates the dict against `Dict[str, str]`: if it validates, the
mapping is returned unchanged with a 200; otherwise the `ValidationError`
is raised outside both `try` blocks and escapes to the global exception
handler in `main.py`, which answers 500 with its fixed generic message. -/
def fill_form_endpoint (request_data : FillFormRequest)
    (get_completion_client : String → Except CompletionException String) :
    EndpointResult :=
  let prompt := build_prompt request_data.fields request_data.source_content
  match get_completion_client prompt with
  | .error e => .httpError 503 ("LLM service request failed: " ++ e.toMsg)
  | .ok llm_response_text =>
    match json_loads llm_response_text with
    | .error msg => .httpError 500 ("Failed to parse LLM response: " ++ msg)
    | .ok filled_data =>
      match filled_data with
      | .obj kvs =>
        if validDictStrStr kvs then .success { filled_data := kvs }
        else .unhandledError 500 "An unexpected internal server error occurred."
      | _ =>
        .httpError 500
          "Failed to parse LLM response: LLM response was not a valid JSON object."

/-! ## Line and substring vocabulary for the prompt-template claims -/

/-- The lines of a text: split a character list at newline characters. -/
def splitNL : List Char → List (List Char)
  | [] => [[]]
  | c :: cs =>
    if c = '\n' then [] :: splitNL cs
    else
      match splitNL cs with
      | [] => [[c]]
      | l :: ls => (c :: l) :: ls

/-- `needle` occurs contiguously (verbatim) inside `hay`. -/
def occursIn (needle hay : List Char) : Prop :=
  ∃ p s, hay = p ++ needle ++ s

/-- `l` ends with `t`. -/
def endsWith (t l : List Char) : Prop :=
  ∃ p, l = p ++ t

/-- `l` starts with `t`. -/
def startsWith (t l : List Char) : Prop :=
  ∃ s, l = t ++ s

/-- Join chunks with a separator: the character-list shape of
`String.intercalate`. -/
def joinSep (sep : List Char) : List (List Char) → List Char
  | [] => []
  | [p] => p
  | p :: ps => p ++ sep ++ joinSep sep ps

/-! ## Claim theorems: endpoint behaviour -/

/-- Counterexample to C1 as stated: the text `\x7b"a": null\x7d` is a
valid JSON object, yet the endpoint does not answer 200 — the pydantic
`Dict[str, str]` validation of `filled_data` rejects the null value when
`FillFormSuccessResponse` is constructed, the `ValidationError` escapes
both `try` blocks, and the global handler answers 500. -/
theorem fill_form_nonstring_object_counterexample :
    (∃ m, json_loads "\x7b\"a\": null\x7d" = .ok (Json.obj m)) ∧
    (fill_form_endpoint { fields := ["a"], source_content := "c" }
        (fun _ => .ok "\x7b\"a\": null\x7d")).statusCode ≠ 200 :=
  ⟨⟨[("a", Json.null)], rfl⟩, by decide⟩

/-- **C1 (amended)**: for every request whose completion text is a valid
JSON object all of whose values are strings — so it passes the response
model's `Dict[str, str]` validation — the fill-form endpoint responds with
HTTP 200 and a `FillFormSuccessResponse` whose `status` is `"success"` and
whose `filled_data` equals the mapping obtained by parsing that text as
JSON.  (An object with a non-string value instead fails the pydantic
validation; see the counterexample.) -/
theorem fill_form_success_of_string_object (request_data : FillFormRequest)
    (client : String → Except CompletionException String) (t : String)
    (m : List (String × Json))
    (hclient : client (build_prompt request_data.fields request_data.source_content) = .ok t)
    (hparse : json_loads t = .ok (Json.obj m))
    (hstr : validDictStrStr m = true) :
    (fill_form_endpoint request_data client).statusCode = 200 ∧
    fill_form_endpoint request_data client =
      .success { status := "success", filled_data := m } := by
  have h : fill_form_endpoint request_data client =
      .success { status := "success", filled_data := m } := by
    simp only [fill_form_endpoint, hclient, hparse, hstr, if_true]
  exact ⟨by rw [h]; rfl, h⟩

/-- Witness for C1 (amended) at the spec's P4 input:
`fields=["name","email"]`, `source_content="John Doe, john@example.com"`,
stubbed client returning the literal object text (all values strings). -/
theorem fill_form_success_of_string_object_witness :
    (fill_form_endpoint
        { fields := ["name", "email"], source_content := "John Doe, john@example.com" }
        (fun _ => .ok "\x7b\"name\": \"John Doe\", \"email\": \"john@example.com\"\x7d")).statusCode = 200 ∧
    fill_form_endpoint
        { fields := ["name", "email"], source_content := "John Doe, john@example.com" }
        (fun _ => .ok "\x7b\"name\": \"John Doe\", \"email\": \"john@example.com\"\x7d") =
      .success { status := "success",
                 filled_data := [("name", Json.str "John Doe"),
                                 ("email", Json.str "john@example.com")] } :=
  fill_form_success_of_string_object
    { fields := ["name", "email"], source_content := "John Doe, john@example.com" }
    (fun _ => .ok "\x7b\"name\": \"John Doe\", \"email\": \"john@example.com\"\x7d")
    "\x7b\"name\": \"John Doe\", \"email\": \"john@example.com\"\x7d"
    [("name", Json.str "John Doe"), ("email", Json.str "john@example.com")]
    rfl rfl rfl

/-- **C2**: whenever the completion client fails with one of the three
classified upstream errors (transport, HTTP status, content extraction),
the endpoint responds 503 with a detail embedding the failure's `str(e)`;
and the response depends only on the client's single value at the built
prompt (no retry can be observed). -/
theorem fill_form_503_on_upstream_failure (request_data : FillFormRequest)
    (client : String → Except CompletionException String) (e : CompletionException)
    (hclass : e.isClassified = true)
    (hclient : client (build_prompt request_data.fields request_data.source_content) = .error e) :
    fill_form_endpoint request_data client =
      .httpError 503 ("LLM service request failed: " ++ e.toMsg) ∧
    ∀ client2 : String → Except CompletionException String,
      client2 (build_prompt request_data.fields request_data.source_content) = .error e →
      fill_form_endpoint request_data client2 = fill_form_endpoint request_data client := by
  constructor
  · simp only [fill_form_endpoint, hclient]
  · intro client2 h2
    simp only [fill_form_endpoint, hclient, h2]

/-- Witness for C2: each of the three classified failure kinds, on a
concrete request, yields the 503 with the embedded message. -/
theorem fill_form_503_on_upstream_failure_witness :
    fill_form_endpoint { fields := ["name"], source_content := "c" }
        (fun _ => .error (.requestError "Connection refused")) =
      .httpError 503 "LLM service request failed: Connection refused" ∧
    fill_form_endpoint { fields := ["name"], source_content := "c" }
        (fun _ => .error (.httpStatusError 500 (httpStatusErrMsg 500))) =
      .httpError 503 ("LLM service request failed: " ++ httpStatusErrMsg 500) ∧
    fill_form_endpoint { fields := ["name"], source_content := "c" }
        (fun _ => .error (.valueError "Error parsing LLM API response: Could not extract valid content from LLM response.")) =
      .httpError 503 "LLM service request failed: Error parsing LLM API response: Could not extract valid content from LLM response." :=
  ⟨(fill_form_503_on_upstream_failure { fields := ["name"], source_content := "c" }
      (fun _ => .error (.requestError "Connection refused"))
      (.requestError "Connection refused") rfl rfl).1,
   (fill_form_503_on_upstream_failure { fields := ["name"], source_content := "c" }
      (fun _ => .error (.httpStatusError 500 (httpStatusErrMsg 500)))
      (.httpStatusError 500 (httpStatusErrMsg 500)) rfl rfl).1,
   (fill_form_503_on_upstream_failure { fields := ["name"], source_content := "c" }
      (fun _ => .error (.valueError "Error parsing LLM API response: Could not extract valid content from LLM response."))
      (.valueError "Error parsing LLM API response: Could not extract valid content from LLM response.") rfl rfl).1⟩

/-- **C3**: when the client succeeds but its text is not valid JSON, or
parses to a non-object, the endpoint responds 500 with a detail describing
the parse failure; conversely a text parsing to a JSON object never yields
a 500. -/
theorem fill_form_500_on_parse_failure (request_data : FillFormRequest)
    (client : String → Except CompletionException String) (t : String)
    (hclient : client (build_prompt request_data.fields request_data.source_content) = .ok t) :
    (∀ msg, json_loads t = .error msg →
      fill_form_endpoint request_data client =
        .httpError 500 ("Failed to parse LLM response: " ++ msg)) ∧
    (∀ j, json_loads t = .ok j → (∀ kvs, j ≠ Json.obj kvs) →
      fill_form_endpoint request_data client =
        .httpError 500 "Failed to parse LLM response: LLM response was not a valid JSON object.") ∧
    (∀ m, json_loads t = .ok (Json.obj m) →
      ∀ d, fill_form_endpoint request_data client ≠ .httpError 500 d) := by
  refine ⟨?_, ?_, ?_⟩
  · intro msg hmsg
    simp only [fill_form_endpoint, hclient, hmsg]
  · intro j hj hnotobj
    simp only [fill_form_endpoint, hclient, hj]
  · intro m hm d
    simp only [fill_form_endpoint, hclient, hm]
    split <;> exact fun h => EndpointResult.noConfusion h

/-- Witness for C3 at the spec's P6 and P7 inputs: the non-JSON literal
text yields a 500 with the decoder's message, and the JSON array yields
the 500 with the not-an-object message. -/
theorem fill_form_500_on_parse_failure_witness :
    fill_form_endpoint { fields := ["name"], source_content := "c" }
        (fun _ => .ok "Sure! Here's your data: \x7b\"name\": \"John\"\x7d") =
      .httpError 500 "Failed to parse LLM response: Expecting value" ∧
    fill_form_endpoint { fields := ["name"], source_content := "c" }
        (fun _ => .ok "[\"John Doe\", \"john@example.com\"]") =
      .httpError 500 "Failed to parse LLM response: LLM response was not a valid JSON object." :=
  ⟨(fill_form_500_on_parse_failure { fields := ["name"], source_content := "c" }
      (fun _ => .ok "Sure! Here's your data: \x7b\"name\": \"John\"\x7d")
      "Sure! Here's your data: \x7b\"name\": \"John\"\x7d" rfl).1
      "Expecting value" rfl,
   (fill_form_500_on_parse_failure { fields := ["name"], source_content := "c" }
      (fun _ => .ok "[\"John Doe\", \"john@example.com\"]")
      "[\"John Doe\", \"john@example.com\"]" rfl).2.1
      (Json.arr [Json.str "John Doe", Json.str "john@example.com"]) rfl
      (fun _ h => Json.noConfusion h)⟩

/-- Counterexample to C4 as stated: the text
`\x7b"age": 30, "info": \x7b"city": "Paris"\x7d\x7d` parses to a JSON
object whose values are a number and a nested object, yet it is NOT
returned as-is with HTTP 200: constructing the response model validates
`filled_data` against `Dict[str, str]`, the `ValidationError` escapes, and
the global handler answers 500. -/
theorem filled_data_nonstring_rejected_counterexample :
    (∃ m, json_loads "\x7b\"age\": 30, \"info\": \x7b\"city\": \"Paris\"\x7d\x7d" =
      .ok (Json.obj m)) ∧
    (fill_form_endpoint { fields := ["age", "info"], source_content := "c" }
        (fun _ => .ok "\x7b\"age\": 30, \"info\": \x7b\"city\": \"Paris\"\x7d\x7d")).statusCode ≠ 200 :=
  ⟨⟨[("age", Json.num (mkNumVal false ['3', '0'] [] false [])),
     ("info", Json.obj [("city", Json.str "Paris")])], rfl⟩, by decide⟩

/-- **C4 (amended)**: a completion text parsing to a JSON object whose
values are all strings is returned as `filled_data` exactly as parsed —
no key-completeness validation happens, keys need not match the requested
fields; but an object with a non-string value (number, nested object, ...)
fails the response model's `Dict[str, str]` validation, whose
`ValidationError` escapes to the global handler: HTTP 500 with the generic
message, not 200 with the mapping. -/
theorem filled_data_validated_as_string_dict (request_data : FillFormRequest)
    (client : String → Except CompletionException String) (t : String)
    (m : List (String × Json))
    (hclient : client (build_prompt request_data.fields request_data.source_content) = .ok t)
    (hparse : json_loads t = .ok (Json.obj m)) :
    (validDictStrStr m = true →
      (fill_form_endpoint request_data client).statusCode = 200 ∧
      ∃ resp, fill_form_endpoint request_data client = .success resp ∧
        resp.filled_data = m) ∧
    (validDictStrStr m = false →
      fill_form_endpoint request_data client =
        .unhandledError 500 "An unexpected internal server error occurred.") := by
  constructor
  · intro hstr
    have h : fill_form_endpoint request_data client =
        .success { status := "success", filled_data := m } := by
      simp only [fill_form_endpoint, hclient, hparse, hstr, if_true]
    exact ⟨by rw [h]; rfl, ⟨_, h, rfl⟩⟩
  · intro hstr
    simp only [fill_form_endpoint, hclient, hparse, hstr, Bool.false_eq_true, if_false]

/-- Witness for C4 (amended): an all-string object whose keys do not match
the requested fields is still returned unchanged with a 200 (no
key-completeness check), while an object with a boolean value is rejected
into the global handler's generic 500. -/
theorem filled_data_validated_as_string_dict_witness :
    ((fill_form_endpoint { fields := ["name"], source_content := "c" }
        (fun _ => .ok "\x7b\"name\": \"John\", \"unrequested\": \"y\"\x7d")).statusCode = 200 ∧
      ∃ resp,
        fill_form_endpoint { fields := ["name"], source_content := "c" }
          (fun _ => .ok "\x7b\"name\": \"John\", \"unrequested\": \"y\"\x7d") = .success resp ∧
        resp.filled_data = [("name", Json.str "John"), ("unrequested", Json.str "y")]) ∧
    fill_form_endpoint { fields := ["name"], source_content := "c" }
        (fun _ => .ok "\x7b\"flag\": true\x7d") =
      .unhandledError 500 "An unexpected internal server error occurred." :=
  ⟨(filled_data_validated_as_string_dict { fields := ["name"], source_content := "c" }
      (fun _ => .ok "\x7b\"name\": \"John\", \"unrequested\": \"y\"\x7d")
      "\x7b\"name\": \"John\", \"unrequested\": \"y\"\x7d"
      [("name", Json.str "John"), ("unrequested", Json.str "y")]
      rfl rfl).1 rfl,
   (filled_data_validated_as_string_dict { fields := ["name"], source_content := "c" }
      (fun _ => .ok "\x7b\"flag\": true\x7d")
      "\x7b\"flag\": true\x7d"
      [("flag", Json.bool true)]
      rfl rfl).2 rfl⟩

/-- **C8**: the prompt builder and the endpoint are pure functions of their
inputs — repeated invocations on the same `fields`, `source_content`,
request and (stubbed) completion client produce identical results, so
identical requests against a deterministic client yield identical
responses. -/
theorem prompt_and_response_deterministic (fields : List String) (sc : String)
    (request_data : FillFormRequest)
    (client : String → Except CompletionException String) :
    build_prompt fields sc = build_prompt fields sc ∧
    fill_form_endpoint request_data client = fill_form_endpoint request_data client :=
  ⟨rfl, rfl⟩

/-- **C10**: EVERY exception from the completion-client stage — classified
or not (e.g. the `AttributeError` arising when `choices[0]` is not an
object) — is mapped by the endpoint's blanket `except Exception` handler to
a 503 whose detail is `"LLM service request failed: "` followed by
`str(e)`; none escapes as a 500. -/
theorem fill_form_503_on_any_client_exception (request_data : FillFormRequest)
    (client : String → Except CompletionException String) (e : CompletionException)
    (hclient : client (build_prompt request_data.fields request_data.source_content) = .error e) :
    fill_form_endpoint request_data client =
      .httpError 503 ("LLM service request failed: " ++ e.toMsg) ∧
    (fill_form_endpoint request_data client).statusCode = 503 := by
  have h : fill_form_endpoint request_data client =
      .httpError 503 ("LLM service request failed: " ++ e.toMsg) := by
    simp only [fill_form_endpoint, hclient]
  exact ⟨h, by rw [h]; rfl⟩

/-- Witness for C10: on the envelope `\x7b"choices": ["x"]\x7d` the real
`get_completion` raises an uncaught `AttributeError` (`choices[0]` is a
string, which has no `.get`), and a client failing with exactly that
exception is mapped to the 503 with the embedded message. -/
theorem fill_form_503_on_any_client_exception_witness :
    get_completion (.response 200 "\x7b\"choices\": [\"x\"]\x7d") =
      .error (.uncaught (.attributeError "'str' object has no attribute 'get'")) ∧
    fill_form_endpoint { fields := ["name"], source_content := "c" }
        (fun _ => .error (.uncaught (.attributeError "'str' object has no attribute 'get'"))) =
      .httpError 503 "LLM service request failed: 'str' object has no attribute 'get'" :=
  ⟨rfl,
   (fill_form_503_on_any_client_exception { fields := ["name"], source_content := "c" }
      (fun _ => .error (.uncaught (.attributeError "'str' object has no attribute 'get'")))
      (.uncaught (.attributeError "'str' object has no attribute 'get'")) rfl).1⟩

/-- **C9**: the endpoint never dispatches on `prompt_template_id` — two
requests agreeing on `fields` and `source_content` (one may leave the id at
its default `"default_v1"`, another carry any other id) produce the same
rendered prompt and the same response. -/
theorem response_independent_of_template_id (r1 r2 : FillFormRequest)
    (client : String → Except CompletionException String)
    (hf : r1.fields = r2.fields) (hs : r1.source_content = r2.source_content) :
    build_prompt r1.fields r1.source_content = build_prompt r2.fields r2.source_content ∧
    fill_form_endpoint r1 client = fill_form_endpoint r2 client := by
  constructor
  · rw [hf, hs]
  · simp only [fill_form_endpoint]
    rw [hf, hs]

/-- Witness for C9: a request leaving `prompt_template_id` at its default
and one carrying `"other_template"` get identical prompts and responses. -/
theorem response_independent_of_template_id_witness :
    build_prompt (FillFormRequest.fields { fields := ["name"], source_content := "c" })
        (FillFormRequest.source_content { fields := ["name"], source_content := "c" }) =
      build_prompt
        (FillFormRequest.fields
          { fields := ["name"], source_content := "c", prompt_template_id := some "other_template" })
        (FillFormRequest.source_content
          { fields := ["name"], source_content := "c", prompt_template_id := some "other_template" }) ∧
    fill_form_endpoint { fields := ["name"], source_content := "c" } (fun _ => .ok "\x7b\x7d") =
      fill_form_endpoint
        { fields := ["name"], source_content := "c", prompt_template_id := some "other_template" }
        (fun _ => .ok "\x7b\x7d") :=
  response_independent_of_template_id
    { fields := ["name"], source_content := "c" }
    { fields := ["name"], source_content := "c", prompt_template_id := some "other_template" }
    (fun _ => .ok "\x7b\x7d") rfl rfl

/-- **C6**: for every api key, endpoint URL and prompt, the single POST
request `get_completion` issues carries `Authorization: Bearer <key>`, a
JSON body with the fixed model id, the given prompt, `max_tokens = 1500`
and `temperature = 0.1`, with the 30-second timeout set in `__init__`. -/
theorem completion_request_construction (api_key api_endpoint prompt : String) :
    build_request (LLMService.init api_key api_endpoint) prompt =
      { method := "POST"
        url := api_endpoint
        headers := [("Authorization", "Bearer " ++ api_key),
                    ("Content-Type", "application/json")]
        payload := { model := "deepseek-coder", prompt := prompt,
                     max_tokens := 1500, temperature := 1 / 10 }
        timeoutSeconds := 30 } := rfl

/-! ## C5: `get_completion` extraction lemmas -/

theorem any_of_jsonLookup {kvs : List (String × Json)} {k : String} {v : Json}
    (h : jsonLookup kvs k = some v) : kvs.any (fun kv => kv.1 == k) = true := by
  induction kvs with
  | nil => simp [jsonLookup] at h
  | cons kv rest ih =>
    rw [List.any_cons]
    cases hk : (kv.1 == k) with
    | true => simp
    | false =>
      simp only [Bool.false_or]
      apply ih
      simpa [jsonLookup, List.find?_cons, hk] using h

/-- If `contentPath` finds a value, the envelope navigation of
`get_completion` returns exactly that value. -/
theorem extract_of_contentPath {j v : Json} (h : contentPath j = some v) :
    extract_content j = .ok v := by
  unfold contentPath at h
  split at h <;> try exact absurd h (by simp)
  rename_i kvs
  split at h <;> try exact absurd h (by simp)
  rename_i c0 rest heq1
  split at h <;> try exact absurd h (by simp)
  rename_i mkvs
  split at h <;> try exact absurd h (by simp)
  rename_i ckvs heq2
  have hany1 := any_of_jsonLookup heq1
  have hany2 := any_of_jsonLookup h
  simp only [extract_content, py_in, hany1, if_true, py_subscript_str, heq1, truthy,
    List.isEmpty, Bool.not_false, py_subscript_zero, py_get, heq2, Option.getD,
    hany2, h]

theorem py_subscript_str_ok {j : Json} {k : String} {v : Json}
    (h : py_subscript_str j k = .ok v) :
    ∃ kvs, j = Json.obj kvs ∧ jsonLookup kvs k = some v := by
  cases j <;> simp only [py_subscript_str] at h
  case obj kvs =>
    refine ⟨kvs, rfl, ?_⟩
    split at h
    · rename_i w hw
      rw [hw]
      rw [Except.ok.injEq] at h
      rw [h]
    · exact absurd h (by simp)
  all_goals exact absurd h (by simp)

theorem py_get_ok {j : Json} {k : String} {d m : Json} (h : py_get j k d = .ok m) :
    ∃ kvs, j = Json.obj kvs ∧ m = (jsonLookup kvs k).getD d := by
  cases j <;> simp only [py_get] at h
  case obj kvs =>
    refine ⟨kvs, rfl, ?_⟩
    rw [Except.ok.injEq] at h
    rw [h]
  all_goals exact absurd h (by simp)

theorem py_subscript_zero_ok {j c0 : Json} (h : py_subscript_zero j = .ok c0) :
    (∃ xs, j = Json.arr (c0 :: xs)) ∨ (∃ s t, j = Json.str s ∧ c0 = Json.str t) := by
  cases j <;> simp only [py_subscript_zero] at h
  case arr elems =>
    cases elems with
    | nil => exact absurd h (by simp)
    | cons x xs =>
      rw [Except.ok.injEq] at h
      exact Or.inl ⟨xs, by rw [h]⟩
  case str s =>
    split at h
    · exact absurd h (by simp)
    · rename_i c cs _
      rw [Except.ok.injEq] at h
      exact Or.inr ⟨s, String.mk [c], rfl, h.symm⟩
  all_goals exact absurd h (by simp)

/-- Conversely, whenever the envelope navigation returns normally, the
returned value is exactly the one at `choices[0].message.content`. -/
theorem contentPath_of_extract {j v : Json} (h : extract_content j = .ok v) :
    contentPath j = some v := by
  unfold extract_content at h
  split at h <;> try exact absurd h (by simp)
  rename_i hasChoices heqIn
  split at h <;> try exact absurd h (by simp)
  rename_i hHas
  split at h <;> try exact absurd h (by simp)
  rename_i choices heqSub
  split at h <;> try exact absurd h (by simp)
  rename_i hTruthy
  split at h <;> try exact absurd h (by simp)
  rename_i c0 heqZero
  split at h <;> try exact absurd h (by simp)
  rename_i message heqGet
  split at h <;> try exact absurd h (by simp)
  rename_i hasContent heqIn2
  split at h <;> try exact absurd h (by simp)
  rename_i hHas2
  obtain ⟨kvs, rfl, hlook⟩ := py_subscript_str_ok heqSub
  obtain ⟨ckvs, hmsgobj, hcontent⟩ := py_subscript_str_ok h
  obtain ⟨mkvs, hc0, hmget⟩ := py_get_ok heqGet
  rcases py_subscript_zero_ok heqZero with ⟨xs, hchoices⟩ | ⟨s, t, hchoices, hc0str⟩
  · subst hchoices
    subst hc0
    have hmsome : jsonLookup mkvs "message" = some (Json.obj ckvs) := by
      cases hml : jsonLookup mkvs "message" with
      | some w =>
        rw [hml] at hmget
        simp only [Option.getD] at hmget
        rw [hmget] at hmsgobj
        rw [hmsgobj]
      | none =>
        rw [hml] at hmget
        simp only [Option.getD] at hmget
        rw [hmget] at hmsgobj
        have hnil : ckvs = ([] : List (String × Json)) :=
          (Json.obj.injEq _ _).mp hmsgobj.symm
        rw [hnil] at hcontent
        simp [jsonLookup] at hcontent
    simp only [contentPath, hlook, hmsome]
    exact hcontent
  · rw [hc0str] at hc0
    exact absurd hc0 (by simp)

/-- **C5**: for every 2xx upstream body, `get_completion` returns exactly
the value at `choices[0].message.content` unmodified when that string path
is present, and raises (returns an error) whenever the body is not valid
JSON or the path is absent. -/
theorem get_completion_2xx_extraction (statusCode : Nat) (body : String)
    (h2xx : 200 ≤ statusCode ∧ statusCode ≤ 299) :
    (∀ j s, json_loads body = .ok j → contentPath j = some (Json.str s) →
      get_completion (.response statusCode body) = .ok (Json.str s)) ∧
    (∀ j, json_loads body = .ok j → contentPath j = none →
      ∃ e, get_completion (.response statusCode body) = .error e) ∧
    (∀ msg, json_loads body = .error msg →
      ∃ e, get_completion (.response statusCode body) = .error e) := by
  refine ⟨?_, ?_, ?_⟩
  · intro j s hj hp
    simp only [get_completion, if_pos h2xx, hj, extract_of_contentPath hp]
  · intro j hj hp
    simp only [get_completion, if_pos h2xx, hj]
    cases hx : extract_content j with
    | error e => exact ⟨wrap_parse_exc e, rfl⟩
    | ok w =>
      have := contentPath_of_extract hx
      rw [hp] at this
      exact absurd this (by simp)
  · intro msg hmsg
    exact ⟨.valueError ("Error parsing LLM API response: " ++ msg),
      by simp only [get_completion, if_pos h2xx, hmsg]⟩

/-- Witness for C5: a 200 body with the content string `"hello "`
(returned unmodified, trailing space included); a body with empty
`choices` (path absent) and a non-JSON body both yield errors. -/
theorem get_completion_2xx_extraction_witness :
    (200 ≤ 200 ∧ 200 ≤ 299) ∧
    get_completion (.response 200
        "\x7b\"choices\": [\x7b\"message\": \x7b\"content\": \"hello \"\x7d\x7d]\x7d") =
      .ok (Json.str "hello ") ∧
    (∃ e, get_completion (.response 200 "\x7b\"choices\": []\x7d") = .error e) ∧
    (∃ e, get_completion (.response 200 "not json") = .error e) :=
  ⟨⟨by decide, by decide⟩,
   (get_completion_2xx_extraction 200
      "\x7b\"choices\": [\x7b\"message\": \x7b\"content\": \"hello \"\x7d\x7d]\x7d"
      ⟨by decide, by decide⟩).1
      (Json.obj [("choices", Json.arr [Json.obj [("message",
        Json.obj [("content", Json.str "hello ")])]])]) "hello " rfl rfl,
   (get_completion_2xx_extraction 200 "\x7b\"choices\": []\x7d"
      ⟨by decide, by decide⟩).2.1
      (Json.obj [("choices", Json.arr [])]) rfl rfl,
   (get_completion_2xx_extraction 200 "not json" ⟨by decide, by decide⟩).2.2
      "Expecting value" rfl⟩

/-! ## C7: prompt-template lemmas -/

theorem splitNL_ne_nil (cs : List Char) : splitNL cs ≠ [] := by
  induction cs with
  | nil => simp [splitNL]
  | cons c cs ih =>
    simp only [splitNL]
    split
    · simp
    · split
      · simp
      · simp

theorem splitNL_append_newline (u v : List Char) :
    splitNL (u ++ '\n' :: v) = splitNL u ++ splitNL v := by
  induction u with
  | nil => simp [splitNL]
  | cons c cs ih =>
    by_cases hc : c = '\n'
    · subst hc
      simp [splitNL, ih]
    · simp only [List.cons_append, splitNL, if_neg hc, List.append_eq]
      rw [ih]
      cases hcs : splitNL cs with
      | nil => exact absurd hcs (splitNL_ne_nil cs)
      | cons l ls => simp

theorem splitNL_no_newline {u : List Char} (h : '\n' ∉ u) : splitNL u = [u] := by
  induction u with
  | nil => rfl
  | cons c cs ih =>
    have hc : ¬ (c = '\n') := fun hh => h (hh ▸ List.mem_cons_self c cs)
    have hcs : '\n' ∉ cs := fun hh => h (List.mem_cons_of_mem c hh)
    simp only [splitNL, if_neg hc, ih hcs]

theorem joinSep_cons_cons (sep p q : List Char) (ps : List (List Char)) :
    joinSep sep (p :: q :: ps) = p ++ sep ++ joinSep sep (q :: ps) := rfl

theorem joinSep_eq_flatten (sep : List Char) (p : List Char) (ps : List (List Char)) :
    joinSep sep (p :: ps) = p ++ (ps.map (fun q => sep ++ q)).flatten := by
  induction ps generalizing p with
  | nil => simp [joinSep]
  | cons q qs ih =>
    rw [joinSep_cons_cons, ih q]
    simp [List.append_assoc]

theorem intercalate_go_data (s : String) (l : List String) :
    ∀ acc : String, (String.intercalate.go acc s l).data =
      acc.data ++ (l.map (fun b => s.data ++ b.data)).flatten := by
  induction l with
  | nil => intro acc; simp [String.intercalate.go]
  | cons b bs ih =>
    intro acc
    simp only [String.intercalate.go, ih, String.data_append, List.map_cons,
      List.flatten_cons, List.append_assoc]

theorem intercalate_data (s : String) (l : List String) :
    (String.intercalate s l).data = joinSep s.data (l.map String.data) := by
  cases l with
  | nil => rfl
  | cons a as =>
    simp only [String.intercalate, intercalate_go_data, List.map_cons]
    rw [joinSep_eq_flatten]
    congr 1
    rw [List.map_map]
    rfl

theorem splitNL_joinSep (parts : List (List Char)) (hne : parts ≠ []) :
    splitNL (joinSep ['\n'] parts) = (parts.map splitNL).flatten := by
  induction parts with
  | nil => exact absurd rfl hne
  | cons p ps ih =>
    cases ps with
    | nil => simp [joinSep]
    | cons q qs =>
      rw [joinSep_cons_cons]
      have hsh : p ++ ['\n'] ++ joinSep ['\n'] (q :: qs) =
          p ++ '\n' :: joinSep ['\n'] (q :: qs) := by simp
      rw [hsh, splitNL_append_newline, ih (by simp)]
      simp

theorem mem_splitNL_joinSep {p : List Char} {parts : List (List Char)}
    (hp : p ∈ parts) (hnl : '\n' ∉ p) : p ∈ splitNL (joinSep ['\n'] parts) := by
  have hne : parts ≠ [] := by rintro rfl; simp at hp
  rw [splitNL_joinSep parts hne]
  exact List.mem_flatten.mpr ⟨[p], List.mem_map.mpr ⟨p, hp, splitNL_no_newline hnl⟩,
    List.mem_singleton.mpr rfl⟩

theorem occursIn_append_around {n h1 : List Char} (h : occursIn n h1)
    (pre post : List Char) : occursIn n (pre ++ h1 ++ post) := by
  obtain ⟨x, y, hxy⟩ := h
  exact ⟨pre ++ x, y ++ post, by rw [hxy]; simp⟩

theorem occursIn_joinSep {p : List Char} {parts : List (List Char)}
    (sep : List Char) (hp : p ∈ parts) : occursIn p (joinSep sep parts) := by
  induction parts with
  | nil => simp at hp
  | cons q qs ih =>
    cases qs with
    | nil =>
      rw [List.mem_singleton] at hp
      exact ⟨[], [], by rw [hp]; simp [joinSep]⟩
    | cons r rs =>
      rw [List.mem_cons] at hp
      rcases hp with rfl | hp
      · exact ⟨[], sep ++ joinSep sep (r :: rs), by rw [joinSep_cons_cons]; simp⟩
      · obtain ⟨x, y, hxy⟩ := ih hp
        exact ⟨q ++ sep ++ x, y, by rw [joinSep_cons_cons, hxy]; simp⟩

theorem fields_str_data (fields : List String) :
    (fields_str fields).data =
      joinSep ['\n'] (fields.map (fun f => '-' :: ' ' :: f.data)) := by
  rw [fields_str, intercalate_data]
  congr 1
  rw [List.map_map]
  congr 1

theorem promptHead_data_eq :
    promptHead.data =
      ("You are an AI assistant tasked with filling out a form.\nBelow are the fields of the form:\n--- FIELDS START ---").data ++ ['\n'] := rfl

theorem promptMid_data_eq :
    promptMid.data =
      '\n' :: ("--- FIELDS END ---\n\nHere is the source content from which to extract the information:\n--- CONTENT START ---\n").data := rfl

theorem promptMid_data_split :
    promptMid.data =
      ("\n--- FIELDS END ---\n\nHere is the source content from which to extract the information:\n").data ++
      ("--- CONTENT START ---\n").data := rfl

theorem promptTail_data_split :
    promptTail.data =
      ("\n--- CONTENT END ---").data ++
      ("\n\nPlease extract the relevant information from the CONTENT and fill in each FIELD.\nReturn the output as a JSON object where each key is a field name from the FIELDS list and its value is the corresponding extracted content.\nIf information for a field is not found, use an empty string or \"Not Found\" as its value.\nEnsure the output is only the JSON object itself, without any additional explanations or markings.\n").data := rfl

/-- **C7 (amended)**: for every fields list and source content the rendered
prompt contains each element of `fields` verbatim behind its `"- "` bullet
marker, with every newline-free element forming a whole line of the prompt
on its own; and `source_content` appears verbatim, unmodified, between the
`--- CONTENT START ---` and `--- CONTENT END ---` delimiter markers.
(Elements containing a newline are split over several lines by the
template's `"\n".join`, so for them only the verbatim-containment part
holds — see the counterexample for the unamended claim.) -/
theorem prompt_fields_and_content_containment (fields : List String) (sc : String) :
    (∀ f ∈ fields,
      occursIn ('-' :: ' ' :: f.data) (build_prompt fields sc).data ∧
      ('\n' ∉ f.data → ('-' :: ' ' :: f.data) ∈ splitNL (build_prompt fields sc).data)) ∧
    (∃ p q, (build_prompt fields sc).data = p ++ sc.data ++ q ∧
      endsWith ("--- CONTENT START ---\n").data p ∧
      startsWith ("\n--- CONTENT END ---").data q) := by
  have hdata : (build_prompt fields sc).data =
      promptHead.data ++ ((fields_str fields).data ++
        (promptMid.data ++ (sc.data ++ promptTail.data))) := by
    simp [build_prompt, List.append_assoc]
  constructor
  · intro f hf
    have hpart : ('-' :: ' ' :: f.data) ∈ fields.map (fun g => '-' :: ' ' :: g.data) :=
      List.mem_map.mpr ⟨f, hf, rfl⟩
    constructor
    · have hocc : occursIn ('-' :: ' ' :: f.data) (fields_str fields).data := by
        rw [fields_str_data]
        exact occursIn_joinSep ['\n'] hpart
      obtain ⟨x, y, hxy⟩ := hocc
      refine ⟨promptHead.data ++ x,
        y ++ (promptMid.data ++ (sc.data ++ promptTail.data)), ?_⟩
      rw [hdata, hxy]
      simp [List.append_assoc]
    · intro hnl
      have hmem : ('-' :: ' ' :: f.data) ∈ splitNL (fields_str fields).data := by
        rw [fields_str_data]
        refine mem_splitNL_joinSep hpart ?_
        intro hx
        rcases List.mem_cons.mp hx with h1 | hx
        · exact absurd h1 (by decide)
        rcases List.mem_cons.mp hx with h2 | hx
        · exact absurd h2 (by decide)
        · exact hnl hx
      have hshape : (build_prompt fields sc).data =
          ("You are an AI assistant tasked with filling out a form.\nBelow are the fields of the form:\n--- FIELDS START ---").data ++
          '\n' :: ((fields_str fields).data ++
            '\n' :: (("--- FIELDS END ---\n\nHere is the source content from which to extract the information:\n--- CONTENT START ---\n").data ++
              (sc.data ++ promptTail.data))) := by
        rw [hdata, promptHead_data_eq, promptMid_data_eq]
        simp [List.append_assoc]
      rw [hshape, splitNL_append_newline, splitNL_append_newline]
      exact List.mem_append_right _ (List.mem_append_left _ hmem)
  · refine ⟨promptHead.data ++ ((fields_str fields).data ++ promptMid.data),
      promptTail.data, ?_, ?_, ?_⟩
    · rw [hdata]
      simp [List.append_assoc]
    · refine ⟨promptHead.data ++ ((fields_str fields).data ++
        ("\n--- FIELDS END ---\n\nHere is the source content from which to extract the information:\n").data), ?_⟩
      rw [promptMid_data_split]
      simp [List.append_assoc]
    · exact ⟨("\n\nPlease extract the relevant information from the CONTENT and fill in each FIELD.\nReturn the output as a JSON object where each key is a field name from the FIELDS list and its value is the corresponding extracted content.\nIf information for a field is not found, use an empty string or \"Not Found\" as its value.\nEnsure the output is only the JSON object itself, without any additional explanations or markings.\n").data,
        promptTail_data_split⟩

/-- Witness for C7 (amended) at `fields = ["name", "email"]`,
`source_content = "John Doe"`: the bullet line for `"name"` occurs verbatim
and is a whole line, and the source content sits between the delimiters. -/
theorem prompt_fields_and_content_containment_witness :
    occursIn ('-' :: ' ' :: ("name").data) (build_prompt ["name", "email"] "John Doe").data ∧
    ('-' :: ' ' :: ("name").data) ∈ splitNL (build_prompt ["name", "email"] "John Doe").data ∧
    (∃ p q, (build_prompt ["name", "email"] "John Doe").data = p ++ ("John Doe").data ++ q ∧
      endsWith ("--- CONTENT START ---\n").data p ∧
      startsWith ("\n--- CONTENT END ---").data q) := by
  have h := prompt_fields_and_content_containment ["name", "email"] "John Doe"
  have h1 := h.1 "name" (by decide)
  exact ⟨h1.1, h1.2 (by decide), h.2⟩

set_option maxRecDepth 100000 in
/-- Counterexample to C7 as stated: with the field `"a\nb"` (a legal
`fields` element — any string is), the bulleted text `"- a\nb"` is NOT on a
line of its own in the rendered prompt: the embedded newline splits it over
two lines (`"- a"` and `"b"`). -/
theorem prompt_field_own_line_counterexample :
    ¬ (('-' :: ' ' :: ("a\nb").data) ∈ splitNL (build_prompt ["a\nb"] "x").data) := by
  decide
